/-
  Verification of core routing-daemon components (neighbor discovery,
  metric-vector comparison, KvStore client, prefix manager, config store)
  against their C++ sources.

  Shallow embedding: each C++ function relevant to a claim is translated
  into an executable Lean definition; machine integers become Int/Nat with
  explicit truncation where overflow matters; fallible code returns
  Option/Except.
-/
import Mathlib

namespace Openr

/- ---------------------------------------------------------------------
   Spark neighbor finite state machine (Spark.cpp, `Spark::stateMap_`
   and `Spark::getNextState`).
   --------------------------------------------------------------------- -/

/-- Neighbor FSM states, in the index order of `Spark::stateMap_`. -/
inductive SparkNeighState
  | IDLE
  | WARM
  | NEGOTIATE
  | ESTABLISHED
  | RESTART
deriving DecidableEq, Repr, Fintype

/-- Neighbor FSM events, in the column order of `Spark::stateMap_`. -/
inductive SparkNeighEvent
  | HELLO_RCVD_INFO
  | HELLO_RCVD_NO_INFO
  | HELLO_RCVD_RESTART
  | HEARTBEAT_RCVD
  | HANDSHAKE_RCVD
  | HEARTBEAT_TIMER_EXPIRE
  | NEGOTIATE_TIMER_EXPIRE
  | GR_TIMER_EXPIRE
deriving DecidableEq, Repr, Fintype

open SparkNeighState SparkNeighEvent

/-- The transition table `Spark::stateMap_`: row = current state, column =
event; `none` corresponds to `folly::none` (an 'UNEXPECTED' transition, on
which `getNextState` CHECK-fails). -/
def stateMap (s : SparkNeighState) (e : SparkNeighEvent) :
    Option SparkNeighState :=
  match s, e with
  -- index 0 - IDLE: HELLO_RCVD_INFO => WARM; HELLO_RCVD_NO_INFO => WARM
  | IDLE, HELLO_RCVD_INFO => some WARM
  | IDLE, HELLO_RCVD_NO_INFO => some WARM
  | IDLE, _ => none
  -- index 1 - WARM: HELLO_RCVD_INFO => NEGOTIATE
  | WARM, HELLO_RCVD_INFO => some NEGOTIATE
  | WARM, _ => none
  -- index 2 - NEGOTIATE: HANDSHAKE_RCVD => ESTABLISHED;
  --                      NEGOTIATE_TIMER_EXPIRE => WARM
  | NEGOTIATE, HANDSHAKE_RCVD => some ESTABLISHED
  | NEGOTIATE, NEGOTIATE_TIMER_EXPIRE => some WARM
  | NEGOTIATE, _ => none
  -- index 3 - ESTABLISHED: HELLO_RCVD_NO_INFO => IDLE;
  --   HELLO_RCVD_RESTART => RESTART; HEARTBEAT_RCVD => ESTABLISHED;
  --   HEARTBEAT_TIMER_EXPIRE => IDLE
  | ESTABLISHED, HELLO_RCVD_NO_INFO => some IDLE
  | ESTABLISHED, HELLO_RCVD_RESTART => some RESTART
  | ESTABLISHED, HEARTBEAT_RCVD => some ESTABLISHED
  | ESTABLISHED, HEARTBEAT_TIMER_EXPIRE => some IDLE
  | ESTABLISHED, _ => none
  -- index 4 - RESTART: HELLO_RCVD_INFO => ESTABLISHED;
  --                    GR_TIMER_EXPIRE => IDLE
  | RESTART, HELLO_RCVD_INFO => some ESTABLISHED
  | RESTART, GR_TIMER_EXPIRE => some IDLE
  | RESTART, _ => none

/-- There is a valid transition from `s` to `t` when some event maps `s`
to `t` in the table (`Spark::getNextState` succeeds and returns `t`). -/
def canStep (s t : SparkNeighState) : Prop :=
  ∃ e : SparkNeighEvent, stateMap s e = some t

instance (s t : SparkNeighState) : Decidable (canStep s t) :=
  inferInstanceAs (Decidable (∃ e, stateMap s e = some t))

/-- Predicate `isChain l` holds when consecutive states of `l` are related by a
valid FSM transition; a chain is an execution of the state machine. -/
def isChain : List SparkNeighState → Prop
  | [] => True
  | [_] => True
  | s :: t :: rest => canStep s t ∧ isChain (t :: rest)

instance isChainDec : ∀ l : List SparkNeighState, Decidable (isChain l)
  | [] => inferInstanceAs (Decidable True)
  | [_] => inferInstanceAs (Decidable True)
  | s :: t :: rest =>
    haveI := isChainDec (t :: rest)
    inferInstanceAs (Decidable (canStep s t ∧ isChain (t :: rest)))

/-- Single-step characterization: the only table entries leading into
`ESTABLISHED` are `NEGOTIATE`/`HANDSHAKE_RCVD`, `ESTABLISHED`/
`HEARTBEAT_RCVD` and `RESTART`/`HELLO_RCVD_INFO`. -/
lemma stateMap_into_established :
    ∀ (s : SparkNeighState) (e : SparkNeighEvent),
      stateMap s e = some ESTABLISHED →
        (s = NEGOTIATE ∧ e = HANDSHAKE_RCVD) ∨
        (s = ESTABLISHED ∧ e = HEARTBEAT_RCVD) ∨
        (s = RESTART ∧ e = HELLO_RCVD_INFO) := by decide

/-- State `RESTART` is entered only from `ESTABLISHED`. -/
lemma stateMap_into_restart :
    ∀ (s : SparkNeighState) (e : SparkNeighEvent),
      stateMap s e = some RESTART → s = ESTABLISHED := by decide

lemma canStep_from_IDLE : ∀ t, canStep IDLE t → t = WARM := by decide

lemma canStep_from_WARM : ∀ t, canStep WARM t → t = NEGOTIATE := by decide

/-- Every chain that starts in `IDLE` or `WARM` and ends by stepping into
`ESTABLISHED` passes through `NEGOTIATE` among its intermediate states. -/
lemma chain_into_established_has_negotiate :
    ∀ (p : List SparkNeighState) (s : SparkNeighState),
      (s = IDLE ∨ s = WARM) → isChain (s :: p ++ [ESTABLISHED]) →
      NEGOTIATE ∈ p := by
  intro p
  induction p with
  | nil =>
    intro s hs hchain
    exfalso
    have hstep : canStep s ESTABLISHED := hchain.1
    rcases hs with rfl | rfl
    · exact absurd hstep (by decide)
    · exact absurd hstep (by decide)
  | cons t rest ih =>
    intro s hs hchain
    have hstep : canStep s t := hchain.1
    by_cases ht : t = NEGOTIATE
    · exact ht ▸ List.mem_cons_self _ _
    · have ht2 : t = IDLE ∨ t = WARM := by
        rcases hs with rfl | rfl
        · exact Or.inr (canStep_from_IDLE t hstep)
        · exact absurd (canStep_from_WARM t hstep) ht
      exact List.mem_cons_of_mem _ (ih t ht2 hchain.2)

/-- C2: for every neighbor FSM execution starting in `IDLE` whose next
state is `ESTABLISHED` — i.e. every chain `IDLE :: p ++ [ESTABLISHED]` of
the transition table — the intermediate states `p` contain both `WARM`
and `NEGOTIATE` (so `ESTABLISHED` is reached only after passing through
both), and moreover the only transitions into `ESTABLISHED` are from
`NEGOTIATE` on `HANDSHAKE_RCVD`, from `ESTABLISHED` on `HEARTBEAT_RCVD`
and from `RESTART` on `HELLO_RCVD_INFO`, while `RESTART` is reachable
only from `ESTABLISHED`. -/
theorem spark_fsm_no_skip_to_established (p : List SparkNeighState)
    (hchain : isChain (IDLE :: p ++ [ESTABLISHED])) :
    WARM ∈ p ∧ NEGOTIATE ∈ p ∧
    (∀ (s : SparkNeighState) (e : SparkNeighEvent),
      stateMap s e = some ESTABLISHED →
        (s = NEGOTIATE ∧ e = HANDSHAKE_RCVD) ∨
        (s = ESTABLISHED ∧ e = HEARTBEAT_RCVD) ∨
        (s = RESTART ∧ e = HELLO_RCVD_INFO)) ∧
    (∀ (s : SparkNeighState) (e : SparkNeighEvent),
      stateMap s e = some RESTART → s = ESTABLISHED) := by
  refine ⟨?_, ?_, stateMap_into_established, stateMap_into_restart⟩
  · -- WARM is visited: the first step out of IDLE can only go to WARM
    match p, hchain with
    | [], hchain => exact absurd (hchain.1 : canStep IDLE ESTABLISHED) (by decide)
    | t :: rest, hchain =>
      have : t = WARM := canStep_from_IDLE t hchain.1
      exact this ▸ List.mem_cons_self _ _
  · exact chain_into_established_has_negotiate p IDLE (Or.inl rfl) hchain

/-- Witness for C2: the canonical execution
`IDLE → WARM → NEGOTIATE → ESTABLISHED` is a chain, and the theorem
applies to it. -/
theorem spark_fsm_no_skip_to_established_witness :
    WARM ∈ [WARM, NEGOTIATE] ∧ NEGOTIATE ∈ [WARM, NEGOTIATE] :=
  ⟨(spark_fsm_no_skip_to_established [WARM, NEGOTIATE] (by decide)).1,
   (spark_fsm_no_skip_to_established [WARM, NEGOTIATE] (by decide)).2.1⟩

/- ---------------------------------------------------------------------
   Metric-vector comparison (Util.h, namespace MetricVectorUtils).
   --------------------------------------------------------------------- -/

namespace MetricVectorUtils

/-- Embedding of `MetricVectorUtils::CompareResult`. -/
inductive CompareResult
  | WINNER
  | TIE_WINNER
  | TIE
  | TIE_LOOSER
  | LOOSER
  | ERROR
deriving DecidableEq, Repr, Fintype

/-- Embedding of `thrift::CompareType` (loner rules). -/
inductive CompareType
  | WIN_IF_PRESENT
  | WIN_IF_NOT_PRESENT
  | IGNORE_IF_NOT_PRESENT
deriving DecidableEq, Repr

/-- Embedding of `thrift::MetricEntity`: a typed, prioritized metric with loner rule. -/
structure MetricEntity where
  type : Int
  priority : Int
  op : CompareType
  isBestPathTieBreaker : Bool
  metric : List Int
deriving DecidableEq, Repr

/-- Embedding of `thrift::MetricVector`. -/
structure MetricVector where
  version : Int
  metrics : List MetricEntity
deriving DecidableEq, Repr

open CompareResult CompareType

/-- Embedding of `MetricVectorUtils::operator!`: the negation mapping on outcomes. -/
def neg : CompareResult → CompareResult
  | WINNER => LOOSER
  | TIE_WINNER => TIE_LOOSER
  | TIE => TIE
  | TIE_LOOSER => TIE_WINNER
  | LOOSER => WINNER
  | ERROR => ERROR

/-- Embedding of `MetricVectorUtils::isDecisive`. -/
def isDecisive (result : CompareResult) : Bool :=
  result = WINNER ∨ result = LOOSER ∨ result = ERROR

/-- Embedding of `MetricVectorUtils::isSorted`: priorities are non-increasing; the C++
starts the scan with `priorPriority = std::numeric_limits<int64_t>::max()`. -/
def isSortedFrom : Int → List MetricEntity → Bool
  | _, [] => true
  | prior, e :: es =>
    if e.priority > prior then false else isSortedFrom e.priority es

def isSorted (mv : MetricVector) : Bool :=
  isSortedFrom (2 ^ 63 - 1) mv.metrics

/-- Insert into a list sorted by decreasing priority (comparator
`l.priority > r.priority`, as passed to `std::sort`). -/
def insertByPriority (x : MetricEntity) :
    List MetricEntity → List MetricEntity
  | [] => [x]
  | y :: ys =>
    if x.priority > y.priority then x :: y :: ys
    else y :: insertByPriority x ys

/-- Embedding of `MetricVectorUtils::sortMetricVector`: sort entities in decreasing
order of priority, skipping the sort when already sorted. `std::sort` is
not stable, so the order of equal-priority entities is unspecified in the
source; the embedding fixes one deterministic order. -/
def sortMetricVector (mv : MetricVector) : List MetricEntity :=
  if isSorted mv then mv.metrics
  else mv.metrics.foldr insertByPriority []

/-- Element-wise walk of `MetricVectorUtils::compareMetrics` (the loop
after the size check): first strict difference decides. -/
def compareMetricsAux (tieBreaker : Bool) :
    List Int → List Int → CompareResult
  | [], _ => TIE
  | _, [] => TIE
  | x :: xs, y :: ys =>
    if x > y then (if tieBreaker then TIE_WINNER else WINNER)
    else if x < y then (if tieBreaker then TIE_LOOSER else LOOSER)
    else compareMetricsAux tieBreaker xs ys

/-- Embedding of `MetricVectorUtils::compareMetrics`: `ERROR` on size mismatch, else
lexicographic comparison; a tie-breaker entity yields `TIE_WINNER` /
`TIE_LOOSER` instead of `WINNER` / `LOOSER`. -/
def compareMetrics (l r : List Int) (tieBreaker : Bool) : CompareResult :=
  if l.length ≠ r.length then ERROR
  else compareMetricsAux tieBreaker l r

/-- Embedding of `MetricVectorUtils::resultForLoner`. -/
def resultForLoner (entity : MetricEntity) : CompareResult :=
  if entity.op = WIN_IF_PRESENT then
    (if entity.isBestPathTieBreaker then TIE_WINNER else WINNER)
  else if entity.op = WIN_IF_NOT_PRESENT then
    (if entity.isBestPathTieBreaker then TIE_LOOSER else LOOSER)
  else TIE

/-- Embedding of `MetricVectorUtils::maybeUpdate`. -/
def maybeUpdate (target update : CompareResult) : CompareResult :=
  if isDecisive update ∨ target = TIE then update else target

/-- The three `while` loops of `MetricVectorUtils::compareMetricVectors`,
fused into one fueled recursion: every loop iterates only while the
result is not decisive; in the main loop matching types compare their
metrics (`ERROR` when tie-breaker flags disagree), a higher-priority
entity on either side is treated as a loner, and equal priorities with
different types give `ERROR` (without advancing; the decisive `ERROR`
exits the loop). The trailing loops treat leftovers as loners. The
wrapper passes fuel `|l| + |r| + 1`, which the loops never exhaust. -/
def compareLoop (fuel : Nat) (result : CompareResult) :
    List MetricEntity → List MetricEntity → CompareResult :=
  match fuel with
  | 0 => fun _ _ => result
  | fuel + 1 => fun ls rs =>
    if isDecisive result then result
    else
      match ls, rs with
      | [], [] => result
      | le :: ls', [] =>
        compareLoop fuel (maybeUpdate result (resultForLoner le)) ls' []
      | [], re :: rs' =>
        compareLoop fuel (maybeUpdate result (neg (resultForLoner re))) [] rs'
      | le :: ls', re :: rs' =>
        if le.type = re.type then
          (if le.isBestPathTieBreaker ≠ re.isBestPathTieBreaker then
            compareLoop fuel (maybeUpdate result ERROR) ls' rs'
          else
            compareLoop fuel
              (maybeUpdate result
                (compareMetrics le.metric re.metric le.isBestPathTieBreaker))
              ls' rs')
        else if le.priority > re.priority then
          compareLoop fuel (maybeUpdate result (resultForLoner le))
            ls' (re :: rs')
        else if le.priority < re.priority then
          compareLoop fuel (maybeUpdate result (neg (resultForLoner re)))
            (le :: ls') rs'
        else
          compareLoop fuel (maybeUpdate result ERROR) (le :: ls') (re :: rs')

/-- Embedding of `MetricVectorUtils::compareMetricVectors`: `ERROR` on version
mismatch, else sort both sides by decreasing priority and run the merge
walk starting from `TIE`. -/
def compareMetricVectors (l r : MetricVector) : CompareResult :=
  if l.version ≠ r.version then ERROR
  else
    let ls := sortMetricVector l
    let rs := sortMetricVector r
    compareLoop (ls.length + rs.length + 1) TIE ls rs

lemma neg_neg : ∀ c : CompareResult, neg (neg c) = c := by decide

lemma isDecisive_neg : ∀ c : CompareResult, isDecisive (neg c) = isDecisive c :=
  by decide

lemma maybeUpdate_neg : ∀ t u : CompareResult,
    maybeUpdate (neg t) (neg u) = neg (maybeUpdate t u) := by decide

lemma maybeUpdate_neg' : ∀ t u : CompareResult,
    maybeUpdate (neg t) u = neg (maybeUpdate t (neg u)) := by decide

lemma compareMetricsAux_swap (tb : Bool) : ∀ (l r : List Int),
    compareMetricsAux tb r l = neg (compareMetricsAux tb l r) := by
  intro l
  induction l with
  | nil => intro r; cases r <;> rfl
  | cons x xs ih =>
    intro r
    cases r with
    | nil => rfl
    | cons y ys =>
      simp only [compareMetricsAux]
      rcases lt_trichotomy x y with h | h | h
      · rw [if_pos h, if_neg (not_lt.mpr h.le), if_pos h]
        cases tb <;> rfl
      · subst h
        rw [if_neg (lt_irrefl x), if_neg (lt_irrefl x), if_neg (lt_irrefl x),
          if_neg (lt_irrefl x)]
        exact ih ys
      · rw [if_pos h, if_neg (not_lt.mpr h.le), if_pos h]
        cases tb <;> rfl

lemma compareMetrics_swap (l r : List Int) (tb : Bool) :
    compareMetrics r l tb = neg (compareMetrics l r tb) := by
  unfold compareMetrics
  by_cases h : l.length = r.length
  · rw [if_neg (by omega), if_neg (by omega)]
    exact compareMetricsAux_swap tb l r
  · rw [if_pos (by omega), if_pos (by omega)]
    rfl

/-- Swapping the two lists (and negating the accumulator) negates the
result of the merge walk, for any fuel. -/
lemma compareLoop_swap : ∀ (fuel : Nat) (result : CompareResult)
    (ls rs : List MetricEntity),
    compareLoop fuel (neg result) rs ls = neg (compareLoop fuel result ls rs) := by
  intro fuel
  induction fuel with
  | zero => intro result ls rs; rfl
  | succ fuel ih =>
    intro result ls rs
    by_cases hdec : isDecisive result
    · simp only [compareLoop]
      rw [if_pos (by rw [isDecisive_neg]; exact hdec), if_pos hdec]
    · have hdec' : ¬ (isDecisive (neg result) = true) := by
        rw [isDecisive_neg]; exact hdec
      cases ls with
      | nil =>
        cases rs with
        | nil => simp only [compareLoop, if_neg hdec, if_neg hdec']
        | cons re rs' =>
          simp only [compareLoop, if_neg hdec, if_neg hdec']
          rw [maybeUpdate_neg']
          exact ih (maybeUpdate result (neg (resultForLoner re))) [] rs'
      | cons le ls' =>
        cases rs with
        | nil =>
          simp only [compareLoop, if_neg hdec, if_neg hdec']
          rw [maybeUpdate_neg]
          exact ih (maybeUpdate result (resultForLoner le)) ls' []
        | cons re rs' =>
          simp only [compareLoop, if_neg hdec, if_neg hdec']
          by_cases hty : le.type = re.type
          · rw [if_pos hty.symm, if_pos hty]
            by_cases htb : le.isBestPathTieBreaker = re.isBestPathTieBreaker
            · rw [if_neg (by simp [htb]), if_neg (by simp [htb]), htb,
                compareMetrics_swap le.metric re.metric re.isBestPathTieBreaker,
                ← htb, maybeUpdate_neg]
              exact ih _ ls' rs'
            · rw [if_pos (Ne.symm htb), if_pos htb, maybeUpdate_neg']
              exact ih _ ls' rs'
          · rw [if_neg (fun h => hty h.symm), if_neg hty]
            rcases lt_trichotomy le.priority re.priority with h | h | h
            · rw [if_pos h, if_neg (not_lt.mpr h.le), if_pos h,
                maybeUpdate_neg']
              exact ih _ (le :: ls') rs'
            · rw [if_neg (by omega), if_neg (by omega), if_neg (by omega),
                if_neg (by omega), maybeUpdate_neg']
              exact ih _ (le :: ls') (re :: rs')
            · rw [if_pos h, if_neg (not_lt.mpr h.le), if_pos h,
                maybeUpdate_neg]
              exact ih _ ls' (re :: rs')

/-- C8: `compareMetricVectors` is antisymmetric — swapping the arguments
maps the outcome through the negation `operator!` (`WINNER ↔ LOOSER`,
`TIE_WINNER ↔ TIE_LOOSER`, `TIE ↔ TIE`, `ERROR ↔ ERROR`), for all metric
vectors. -/
theorem compareMetricVectors_antisymmetric (l r : MetricVector) :
    compareMetricVectors l r = neg (compareMetricVectors r l) := by
  unfold compareMetricVectors
  by_cases hv : l.version = r.version
  · rw [if_neg (by omega), if_neg (by omega)]
    show compareLoop
        ((sortMetricVector l).length + (sortMetricVector r).length + 1)
        TIE (sortMetricVector l) (sortMetricVector r) =
      neg (compareLoop
        ((sortMetricVector r).length + (sortMetricVector l).length + 1)
        TIE (sortMetricVector r) (sortMetricVector l))
    rw [show (sortMetricVector r).length + (sortMetricVector l).length + 1 =
        (sortMetricVector l).length + (sortMetricVector r).length + 1 by omega]
    exact compareLoop_swap _ TIE (sortMetricVector r) (sortMetricVector l)
  · rw [if_pos (by omega), if_pos (by omega)]
    rfl

end MetricVectorUtils

/- ---------------------------------------------------------------------
   RTT deduction from reflected hello timestamps
   (Spark.cpp, `Spark::processHelloPacket`, RTT section).
   --------------------------------------------------------------------- -/

/-- Embedding of the RTT deduction in `Spark::processHelloPacket`.
All four timestamps are microsecond counts (`std::chrono::microseconds`,
an `int64_t` count; modelled as `Int`). A `some` result is an accepted
sample (fed to the step detector / stored as `rttLatest`); `none` means
no sample is taken. The `/ 1000 * 1000` masking uses C++ integer
division, which truncates toward zero: `Int.tdiv`. Note the source
applies `std::max(rtt / 1000 * 1000, 1000us)` *before* testing
`rtt.count() < 0`. -/
def processHelloRtt (mySentTime nbrRecvTime nbrSentTime myRecvTime : Int) :
    Option Int :=
  -- "Measure only if neighbor is reflecting our previous hello packet."
  if mySentTime ≠ 0 ∧ nbrRecvTime ≠ 0 then
    -- "Time anomaly" checks set useRtt = false
    if nbrSentTime < nbrRecvTime ∨ myRecvTime < mySentTime then none
    else
      let rtt := (myRecvTime - mySentTime) - (nbrSentTime - nbrRecvTime)
      -- "Mask off to millisecond accuracy!" with a floor of 1000us
      let rtt2 := max (rtt.tdiv 1000 * 1000) 1000
      if rtt2 < 0 then none else some rtt2
  else none

/-- Counterexample to C3 as stated: with reflected timestamps
`my_sent = 1000`, `nbr_recv = 1000`, `nbr_sent = 1300`, `my_recv = 1100`
(all in microseconds, all in order), the raw RTT
`(my_recv - my_sent) - (nbr_sent - nbr_recv) = -200` is negative, yet
the sample is *accepted* with value 1000us: the clamp to a minimum of
1 ms happens before the negativity test, so the rejection branch for
negative samples is unreachable. -/
theorem processHelloRtt_negative_sample_accepted :
    ((1100 - 1000) - (1300 - 1000) : Int) < 0 ∧
    processHelloRtt 1000 1000 1300 1100 = some 1000 := by decide

/-- C3 (amended): for every hello reflecting this node's timestamps
(`my_sent ≠ 0`, `nbr_recv ≠ 0`): a sample with out-of-order timestamps
(`nbr_sent < nbr_recv` or `my_recv < my_sent`) is rejected; every other
sample is *accepted* — including those whose raw RTT
`(my_recv - my_sent) - (nbr_sent - nbr_recv)` is negative — with value
`max(raw_rtt / 1000 * 1000, 1000)` microseconds (truncated toward zero),
so every accepted sample is a multiple of 1 ms and at least 1 ms. -/
theorem processHelloRtt_spec (mySentTime nbrRecvTime nbrSentTime myRecvTime : Int)
    (hs : mySentTime ≠ 0) (hr : nbrRecvTime ≠ 0) :
    ((nbrSentTime < nbrRecvTime ∨ myRecvTime < mySentTime) →
      processHelloRtt mySentTime nbrRecvTime nbrSentTime myRecvTime = none) ∧
    (nbrRecvTime ≤ nbrSentTime → mySentTime ≤ myRecvTime →
      processHelloRtt mySentTime nbrRecvTime nbrSentTime myRecvTime =
        some (max
          (((myRecvTime - mySentTime) - (nbrSentTime - nbrRecvTime)).tdiv 1000
            * 1000) 1000)) ∧
    (∀ v, processHelloRtt mySentTime nbrRecvTime nbrSentTime myRecvTime =
        some v → 1000 ≤ v ∧ v % 1000 = 0) := by
  refine ⟨?_, ?_, ?_⟩
  · intro h
    unfold processHelloRtt
    rw [if_pos ⟨hs, hr⟩, if_pos h]
  · intro h1 h2
    unfold processHelloRtt
    rw [if_pos ⟨hs, hr⟩, if_neg (by omega)]
    rw [if_neg (by
      have := le_max_right
        ((((myRecvTime - mySentTime) - (nbrSentTime - nbrRecvTime)).tdiv 1000)
          * 1000) (1000 : Int)
      omega)]
  · intro v hv
    unfold processHelloRtt at hv
    rw [if_pos ⟨hs, hr⟩] at hv
    by_cases h : nbrSentTime < nbrRecvTime ∨ myRecvTime < mySentTime
    · rw [if_pos h] at hv; exact absurd hv (by simp)
    · rw [if_neg h] at hv
      set q := (((myRecvTime - mySentTime) - (nbrSentTime - nbrRecvTime)).tdiv
        1000) * 1000 with hq
      have hle : (1000 : Int) ≤ max q 1000 := le_max_right _ _
      rw [if_neg (by omega)] at hv
      have hv' : max q 1000 = v := by
        simpa using hv
      constructor
      · omega
      · rcases max_choice q 1000 with hmax | hmax
        · rw [← hv', hmax, hq]
          exact Int.mul_emod_left _ _
        · rw [← hv', hmax]; decide

/-- Witness for the amended C3: concrete reflected timestamps
`(1000, 2000, 2500, 4000)` pass the order checks and produce the accepted,
millisecond-truncated sample 2500 → 2000us. -/
theorem processHelloRtt_spec_witness :
    processHelloRtt 1000 2000 2500 4000 = some 2000 := by
  have h := (processHelloRtt_spec 1000 2000 2500 4000 (by decide)
    (by decide)).2.1 (by decide) (by decide)
  rw [h]
  decide

/- ---------------------------------------------------------------------
   Hello-packet validation, neighbor tracking and adjacency-label
   allocation (Spark.cpp: `sanityCheckHelloPkt`, `parsePacket`,
   `validateHelloPacket`, `getNewLabelForIface`,
   `processNeighborHoldTimeout`).
   --------------------------------------------------------------------- -/

/-- Embedding of `openr::PacketValidationResult`. -/
inductive PacketValidationResult
  | SUCCESS
  | FAILURE
  | NEIGHBOR_RESTART
deriving DecidableEq, Repr

/-- The fields of `thrift::SparkNeighbor` that the validation logic
reads; the v4 transport address is modelled as an abstract integer
encoding of the address bytes. -/
structure SparkNeighborInfo where
  domainName : String
  nodeName : String
  ifName : String
  transportAddressV4 : Int
deriving DecidableEq, Repr

/-- Embedding of the `Spark::Neighbor` state read/written by `validateHelloPacket` and
`processNeighborHoldTimeout`: stored info, last sequence number, the
segment-routing label assigned on first contact, and adjacency flag. -/
structure Neighbor where
  info : SparkNeighborInfo
  seqNum : Nat
  label : Int
  isAdjacent : Bool
deriving DecidableEq, Repr

/-- The three `spark.invalid_keepalive.*` drop counters that
`sanityCheckHelloPkt` bumps (`tData_.addStatValue`). -/
structure SparkCounters where
  loopedPacket : Nat
  differentDomain : Nat
  invalidVersion : Nat
deriving DecidableEq, Repr

/-- Node-local Spark configuration. `srBase`/`srTop` stand for
`Constants::kSrLocalRange.first/.second` (Constants.h is not among the
exposed sources, so the range bounds are kept as configuration). -/
structure SparkConfig where
  myNodeName : String
  myDomainName : String
  lowestSupportedVersion : Nat
  enableV4 : Bool
  enableSubnetValidation : Bool
  srBase : Int
  srTop : Int
deriving Repr

/-- Per-interface Spark state touched by `validateHelloPacket`: the
tracked-neighbor map `neighbors_.at(ifName)`, the global
`allocatedLabels_` set and the drop counters. -/
structure SparkIfState where
  ifNeighbors : List (String × Neighbor)
  allocatedLabels : List Int
  counters : SparkCounters
deriving DecidableEq, Repr

/-- In-place update of one entry of an association list (a C++
`map[k] = ...` / mutation through an iterator). -/
def updateAssoc {α : Type} (k : String) (f : α → α) :
    List (String × α) → List (String × α)
  | [] => []
  | p :: ps =>
    if p.1 == k then (p.1, f p.2) :: ps else p :: updateAssoc k f ps

/-- The decrement loop of `Spark::getNewLabelForIface`: repeatedly try to
insert `label` into the allocated set, decrementing while it is already
present. The C++ loop terminates because the set is finite; the embedding
makes that explicit with fuel, and `allocated.length + 1` attempts always
suffice (each failed attempt consumes a distinct member of the set,
cf. `scanDown_fuel_sufficient`). -/
def scanDown (allocated : List Int) : Int → Nat → Option Int
  | _, 0 => none
  | label, fuel + 1 =>
    if label ∈ allocated then scanDown allocated (label - 1) fuel
    else some label

/-- Embedding of `Spark::getNewLabelForIface`: prefer `kSrLocalRange.first + ifIndex`
(no range check on this branch); on collision scan downward from
`kSrLocalRange.second`; the scan ending below `kSrLocalRange.first`
throws `std::runtime_error` ("Ran out of local label allocation space"),
modelled as `Except.error` (the C++ has inserted the below-range label
into the set before throwing; the state after a throw is not modelled). -/
def getNewLabelForIface (srBase srTop ifIndex : Int)
    (allocated : List Int) : Except Unit (Int × List Int) :=
  if (srBase + ifIndex) ∉ allocated then
    Except.ok (srBase + ifIndex, (srBase + ifIndex) :: allocated)
  else
    match scanDown allocated srTop (allocated.length + 1) with
    | none => Except.error ()
    | some label =>
      if label < srBase then Except.error ()
      else Except.ok (label, label :: allocated)

/-- Embedding of `Spark::sanityCheckHelloPkt`: drop own looped packets, packets from a
different domain, and packets below the lowest supported version — in
that order, bumping the matching `spark.invalid_keepalive.*` counter. -/
def sanityCheckHelloPkt (myNodeName myDomainName : String)
    (lowestSupportedVersion : Nat) (domainName neighborName : String)
    (remoteVersion : Nat) (c : SparkCounters) :
    PacketValidationResult × SparkCounters :=
  if neighborName = myNodeName then
    (PacketValidationResult.FAILURE,
      { c with loopedPacket := c.loopedPacket + 1 })
  else if domainName ≠ myDomainName then
    (PacketValidationResult.FAILURE,
      { c with differentDomain := c.differentDomain + 1 })
  else if remoteVersion < lowestSupportedVersion then
    (PacketValidationResult.FAILURE,
      { c with invalidVersion := c.invalidVersion + 1 })
  else (PacketValidationResult.SUCCESS, c)

/-- The gating sequence of `Spark::parsePacket`, in source order: a
packet whose IPv6 hop limit is below `kSparkHopLimit` (255) is dropped
first, before the interface lookup, the per-(interface, sender) rate
limit, the size checks and thrift deserialization; `true` means the
packet goes on to message processing. -/
def parsePacketAccepts (hopLimit : Int) (ifaceKnown rateLimitOk : Bool)
    (bytesRead : Int) (parseOk : Bool) : Bool :=
  if hopLimit < 255 then false
  else if !ifaceKnown then false
  else if !rateLimitOk then false
  else if 0 ≤ bytesRead then
    (if 1280 < bytesRead then false else parseOk)
  else false

/-- Embedding of `Spark::validateHelloPacket`, per receiving interface: sanity check
first (a failure returns before any neighbor state is read or written);
then the optional v4-subnet validation (`v4SubnetOk` abstracts
`validateV4AddressSubnet`, whose folly IP arithmetic is not modelled);
an unknown neighbor is added to the tracking map with a fresh label; for
a tracked neighbor, a sequence number ≤ the stored one means the
neighbor restarted: its stored info and sequence number are replaced and
`NEIGHBOR_RESTART` is returned; otherwise the sequence number is updated
and, when v4 is enabled, a changed v4 address also reports
`NEIGHBOR_RESTART`. -/
def validateHelloPacket (cfg : SparkConfig) (v4SubnetOk : Bool)
    (ifIndex : Int) (st : SparkIfState) (originator : SparkNeighborInfo)
    (remoteVersion seqNum : Nat) :
    Except Unit (PacketValidationResult × SparkIfState) :=
  match sanityCheckHelloPkt cfg.myNodeName cfg.myDomainName
      cfg.lowestSupportedVersion originator.domainName originator.nodeName
      remoteVersion st.counters with
  | (PacketValidationResult.FAILURE, c') =>
    Except.ok (PacketValidationResult.FAILURE, { st with counters := c' })
  | (_, c') =>
    let st' : SparkIfState := { st with counters := c' }
    if cfg.enableV4 ∧ cfg.enableSubnetValidation ∧ ¬ v4SubnetOk then
      -- (the failed-subnet counters live in validateV4AddressSubnet)
      Except.ok (PacketValidationResult.FAILURE, st')
    else
      match st'.ifNeighbors.lookup originator.nodeName with
      | none =>
        -- "first time we hear from this guy, add to tracking list"
        match getNewLabelForIface cfg.srBase cfg.srTop ifIndex
            st'.allocatedLabels with
        | Except.error e => Except.error e
        | Except.ok (label, allocated') =>
          let nbrs := (originator.nodeName,
            (⟨originator, seqNum, label, false⟩ : Neighbor)) :: st'.ifNeighbors
          Except.ok (PacketValidationResult.SUCCESS,
            { st' with ifNeighbors := nbrs, allocatedLabels := allocated' })
      | some neighbor =>
        if seqNum ≤ neighbor.seqNum then
          let nbrs := updateAssoc originator.nodeName
            (fun nb => { nb with info := originator, seqNum := seqNum })
            st'.ifNeighbors
          Except.ok (PacketValidationResult.NEIGHBOR_RESTART,
            { st' with ifNeighbors := nbrs })
        else
          let nbrs := updateAssoc originator.nodeName
            (fun nb => { nb with seqNum := seqNum }) st'.ifNeighbors
          let st'' : SparkIfState := { st' with ifNeighbors := nbrs }
          if cfg.enableV4 ∧
              originator.transportAddressV4 ≠
                neighbor.info.transportAddressV4 then
            Except.ok (PacketValidationResult.NEIGHBOR_RESTART, st'')
          else
            Except.ok (PacketValidationResult.SUCCESS, st'')

/-- Embedding of `Spark::processNeighborHoldTimeout`: on hold-timer expiry the
neighbor's label is removed from `allocatedLabels_` and the neighbor is
dropped from the per-interface tracking map (the `SCOPE_EXIT` block);
the callback only fires for tracked neighbors. -/
def processNeighborHoldTimeout (ifNeighbors : List (String × Neighbor))
    (allocated : List Int) (neighborName : String) :
    List (String × Neighbor) × List Int :=
  match ifNeighbors.lookup neighborName with
  | none => (ifNeighbors, allocated)
  | some nb =>
    (ifNeighbors.filter (fun p => p.1 != neighborName),
      allocated.erase nb.label)

lemma scanDown_none_mem (a : List Int) :
    ∀ (fuel : Nat) (label : Int), scanDown a label fuel = none →
      ∀ k : Nat, k < fuel → label - k ∈ a := by
  intro fuel
  induction fuel with
  | zero => intro label _ k hk; omega
  | succ fuel ih =>
    intro label hnone k hk
    by_cases hmem : label ∈ a
    · simp only [scanDown, if_pos hmem] at hnone
      cases k with
      | zero => simpa using hmem
      | succ k =>
        have hmem' := ih (label - 1) hnone k (by omega)
        have heq : label - 1 - (k : Int) = label - ((k : Nat) + 1 : Nat) := by
          push_cast; ring
        rwa [heq] at hmem'
    · simp only [scanDown, if_neg hmem] at hnone
      exact absurd hnone (by simp)

/-- Fuel sufficiency for the decrement loop: with `|allocated| + 1`
attempts the loop always finds a free label (each failed attempt
consumes a distinct member of the allocated set). -/
lemma scanDown_fuel_sufficient (a : List Int) (label : Int) :
    scanDown a label (a.length + 1) ≠ none := by
  intro hnone
  have hmem := scanDown_none_mem a (a.length + 1) label hnone
  have hsub : (Finset.range (a.length + 1)).image
      (fun k : Nat => label - k) ⊆ a.toFinset := by
    intro x hx
    simp only [Finset.mem_image, Finset.mem_range] at hx
    obtain ⟨k, hk, rfl⟩ := hx
    exact List.mem_toFinset.mpr (hmem k hk)
  have hinj : Function.Injective (fun k : Nat => label - k) := by
    intro k₁ k₂ h
    simp only at h
    omega
  have hcard : ((Finset.range (a.length + 1)).image
      (fun k : Nat => label - k)).card = a.length + 1 := by
    rw [Finset.card_image_of_injective _ hinj, Finset.card_range]
  have h1 := Finset.card_le_card hsub
  have h2 := a.toFinset_card_le
  omega

/-- What the decrement loop returns: the greatest label `l ≤ label` not
in the allocated set (every value strictly between `l` and the starting
label is allocated). -/
lemma scanDown_some (a : List Int) :
    ∀ (fuel : Nat) (label l : Int), scanDown a label fuel = some l →
      l ∉ a ∧ l ≤ label ∧ ∀ m, l < m → m ≤ label → m ∈ a := by
  intro fuel
  induction fuel with
  | zero => intro label l h; simp [scanDown] at h
  | succ fuel ih =>
    intro label l h
    by_cases hmem : label ∈ a
    · simp only [scanDown, if_pos hmem] at h
      obtain ⟨h1, h2, h3⟩ := ih (label - 1) l h
      refine ⟨h1, by omega, fun m hm1 hm2 => ?_⟩
      by_cases hm : m = label
      · exact hm ▸ hmem
      · exact h3 m hm1 (by omega)
    · simp only [scanDown, if_neg hmem, Option.some.injEq] at h
      subst h
      exact ⟨hmem, le_refl _, fun m hm1 hm2 => by omega⟩

/-- Counterexample to C7 as stated: the preferred label
`base + if_index` is returned without any range check, so with range
`[100, 103]` and `if_index = 10` a fresh adjacency is assigned label
110, which lies outside the configured local range. -/
theorem getNewLabelForIface_out_of_range :
    getNewLabelForIface 100 103 10 [] = Except.ok (110, [110]) ∧
    ¬ (110 : Int) ≤ 103 := by
  constructor
  · rfl
  · decide

/-- C7 (amended): every allocation returns a label that is unique among
the currently allocated ones and inserts it into the set; `base +
if_index` is preferred and — as the counterexample shows — returned
without a range check; on collision the allocator scans downward from
the top of the range and returns the greatest free label, which then
does lie within `[base, top]`; when every label of `[base, top]` is
taken the collision path raises an error; and on neighbor hold-timeout
the neighbor's label is released from the allocated set. -/
theorem getNewLabelForIface_spec (srBase srTop ifIndex : Int)
    (a : List Int) :
    (∀ l a', getNewLabelForIface srBase srTop ifIndex a =
        Except.ok (l, a') → l ∉ a ∧ a' = l :: a) ∧
    (srBase + ifIndex ∉ a →
      getNewLabelForIface srBase srTop ifIndex a =
        Except.ok (srBase + ifIndex, (srBase + ifIndex) :: a)) ∧
    (srBase + ifIndex ∈ a →
      ∀ l a', getNewLabelForIface srBase srTop ifIndex a =
          Except.ok (l, a') →
        srBase ≤ l ∧ l ≤ srTop ∧ l ∉ a ∧
          ∀ m, l < m → m ≤ srTop → m ∈ a) ∧
    (srBase + ifIndex ∈ a → (∀ m, srBase ≤ m → m ≤ srTop → m ∈ a) →
      getNewLabelForIface srBase srTop ifIndex a = Except.error ()) ∧
    (∀ name nb ifNbs, List.lookup name ifNbs = some nb → a.Nodup →
      nb.label ∉ (processNeighborHoldTimeout ifNbs a name).2) := by
  have hok : ∀ l a', getNewLabelForIface srBase srTop ifIndex a =
      Except.ok (l, a') →
      (srBase + ifIndex ∉ a ∧ l = srBase + ifIndex ∧ a' = l :: a) ∨
      (srBase + ifIndex ∈ a ∧
        scanDown a srTop (a.length + 1) = some l ∧ srBase ≤ l ∧
        a' = l :: a) := by
    intro l a' h
    unfold getNewLabelForIface at h
    by_cases hp : (srBase + ifIndex) ∉ a
    · rw [if_pos hp] at h
      left
      simp only [Except.ok.injEq, Prod.mk.injEq] at h
      exact ⟨hp, h.1.symm, by rw [← h.2, h.1]⟩
    · rw [if_neg hp] at h
      right
      split at h
      · exact absurd h (by simp)
      · rename_i l' hscan
        split at h
        · exact absurd h (by simp)
        · rename_i hge
          simp only [Except.ok.injEq, Prod.mk.injEq] at h
          refine ⟨by simpa using hp, ?_, by omega, by rw [← h.2, h.1]⟩
          rw [hscan, h.1]
  refine ⟨?_, ?_, ?_, ?_, ?_⟩
  · intro l a' h
    rcases hok l a' h with ⟨hp, rfl, rfl⟩ | ⟨_, hscan, _, rfl⟩
    · exact ⟨hp, rfl⟩
    · exact ⟨(scanDown_some a (a.length + 1) srTop l hscan).1, rfl⟩
  · intro hp
    unfold getNewLabelForIface
    rw [if_pos hp]
  · intro hp l a' h
    rcases hok l a' h with ⟨hp', _, _⟩ | ⟨_, hscan, hge, rfl⟩
    · exact absurd hp hp'
    · obtain ⟨h1, h2, h3⟩ := scanDown_some a (a.length + 1) srTop l hscan
      exact ⟨hge, h2, h1, h3⟩
  · intro hp hall
    unfold getNewLabelForIface
    rw [if_neg (by simpa using hp)]
    cases hscan : scanDown a srTop (a.length + 1) with
    | none => rfl
    | some l' =>
      obtain ⟨h1, h2, _⟩ := scanDown_some a (a.length + 1) srTop l' hscan
      have hlt : l' < srBase := by
        by_contra hge
        exact h1 (hall l' (by omega) h2)
      simp only [if_pos hlt]
  · intro name nb ifNbs hlook hnodup
    unfold processNeighborHoldTimeout
    rw [hlook]
    show nb.label ∉ a.erase nb.label
    exact hnodup.not_mem_erase

/-- Witness for the amended C7: with range `[100, 103]`, `if_index = 1`
and labels 101 and 103 already allocated, the preferred label 101
collides and the downward scan from 103 allocates 102, which is free,
in range, and with 103 above it taken. -/
theorem getNewLabelForIface_spec_witness :
    (100 : Int) ≤ 102 ∧ (102 : Int) ≤ 103 ∧ (102 : Int) ∉ [101, 103] ∧
    (∀ m : Int, 102 < m → m ≤ 103 → m ∈ [101, 103]) :=
  (getNewLabelForIface_spec 100 103 1 [101, 103]).2.2.1
    (by decide) 102 [102, 101, 103] (by rfl)

lemma lookup_updateAssoc {α : Type} (k : String) (f : α → α) :
    ∀ l : List (String × α),
      (updateAssoc k f l).lookup k = (l.lookup k).map f := by
  intro l
  induction l with
  | nil => rfl
  | cons p ps ih =>
    by_cases h : p.1 = k
    · simp [updateAssoc, List.lookup, h]
    · have hbeq : (p.1 == k) = false := by simpa using h
      have hbeq' : (k == p.1) = false := by
        simpa using fun he => h he.symm
      simp [updateAssoc, List.lookup, hbeq, hbeq', ih]

/-- C6: a received packet whose IPv6 hop limit is below the maximum
(255) is dropped by `parsePacket` before any processing, and a hello
whose originator loops back our own node name, carries a different
domain, or a version below the lowest supported one is rejected by
`validateHelloPacket` with `FAILURE`: the tracked-neighbor map and the
allocated-label set are untouched and exactly the matching
`spark.invalid_keepalive.*` drop counter is incremented (loop checked
first, then domain, then version). -/
theorem hello_packet_validation_drops
    (hopLimit : Int) (ifaceKnown rateLimitOk : Bool) (bytesRead : Int)
    (parseOk : Bool) (cfg : SparkConfig) (v4SubnetOk : Bool) (ifIndex : Int)
    (st : SparkIfState) (originator : SparkNeighborInfo)
    (remoteVersion seqNum : Nat)
    (hbad : originator.nodeName = cfg.myNodeName ∨
      originator.domainName ≠ cfg.myDomainName ∨
      remoteVersion < cfg.lowestSupportedVersion) :
    (hopLimit < 255 →
      parsePacketAccepts hopLimit ifaceKnown rateLimitOk bytesRead parseOk
        = false) ∧
    validateHelloPacket cfg v4SubnetOk ifIndex st originator remoteVersion
        seqNum =
      Except.ok (PacketValidationResult.FAILURE,
        { ifNeighbors := st.ifNeighbors,
          allocatedLabels := st.allocatedLabels,
          counters :=
            if originator.nodeName = cfg.myNodeName then
              { st.counters with
                loopedPacket := st.counters.loopedPacket + 1 }
            else if originator.domainName ≠ cfg.myDomainName then
              { st.counters with
                differentDomain := st.counters.differentDomain + 1 }
            else
              { st.counters with
                invalidVersion := st.counters.invalidVersion + 1 } }) := by
  constructor
  · intro h
    unfold parsePacketAccepts
    rw [if_pos h]
  · by_cases h1 : originator.nodeName = cfg.myNodeName
    · unfold validateHelloPacket sanityCheckHelloPkt
      simp only [if_pos h1]
    · by_cases h2 : originator.domainName ≠ cfg.myDomainName
      · unfold validateHelloPacket sanityCheckHelloPkt
        simp only [if_neg h1, if_pos h2]
      · have h3 : remoteVersion < cfg.lowestSupportedVersion := by
          tauto
        unfold validateHelloPacket sanityCheckHelloPkt
        simp only [if_neg h1, if_neg h2, if_pos h3]

/-- Witness for C6: a concrete looped packet (originator node name equal
to the local node name) is rejected with only the looped-packet counter
bumped, and a concrete hop limit 254 packet is dropped. -/
theorem hello_packet_validation_drops_witness :
    parsePacketAccepts 254 true true 100 true = false ∧
    validateHelloPacket
        ⟨"node1", "domain1", 1, false, false, 100, 103⟩ true 7
        ⟨[], [], ⟨0, 0, 0⟩⟩ ⟨"domain1", "node1", "if1", 0⟩ 5 9 =
      Except.ok (PacketValidationResult.FAILURE,
        ⟨[], [], ⟨1, 0, 0⟩⟩) := by
  have h := hello_packet_validation_drops 254 true true 100 true
    ⟨"node1", "domain1", 1, false, false, 100, 103⟩ true 7
    ⟨[], [], ⟨0, 0, 0⟩⟩ ⟨"domain1", "node1", "if1", 0⟩ 5 9
    (Or.inl rfl)
  refine ⟨h.1 (by decide), ?_⟩
  rw [h.2]
  rfl

/-- C9: for an already-tracked neighbor (passing the sanity and subnet
checks), a hello whose sequence number is at most the stored one is
classified `NEIGHBOR_RESTART`, and the stored neighbor record is
replaced by the packet's originator info and sequence number; a hello
with a strictly greater sequence number only updates the stored
sequence number and reports `NEIGHBOR_RESTART` solely when v4 is
enabled and the originator's v4 address changed — otherwise it is
`SUCCESS`. -/
theorem hello_seqnum_restart (cfg : SparkConfig) (v4SubnetOk : Bool)
    (ifIndex : Int) (st : SparkIfState) (originator : SparkNeighborInfo)
    (remoteVersion seqNum : Nat) (nb : Neighbor)
    (hname : ¬ originator.nodeName = cfg.myNodeName)
    (hdom : originator.domainName = cfg.myDomainName)
    (hver : cfg.lowestSupportedVersion ≤ remoteVersion)
    (hsubnet : ¬ (cfg.enableV4 ∧ cfg.enableSubnetValidation ∧ ¬ v4SubnetOk))
    (htracked : st.ifNeighbors.lookup originator.nodeName = some nb) :
    (seqNum ≤ nb.seqNum →
      validateHelloPacket cfg v4SubnetOk ifIndex st originator remoteVersion
          seqNum =
        Except.ok (PacketValidationResult.NEIGHBOR_RESTART,
          { st with
            ifNeighbors :=
              updateAssoc originator.nodeName
                (fun n => { n with info := originator, seqNum := seqNum })
                st.ifNeighbors }) ∧
      (updateAssoc originator.nodeName
          (fun n => { n with info := originator, seqNum := seqNum })
          st.ifNeighbors).lookup originator.nodeName =
        some { nb with info := originator, seqNum := seqNum }) ∧
    (nb.seqNum < seqNum →
      validateHelloPacket cfg v4SubnetOk ifIndex st originator remoteVersion
          seqNum =
        Except.ok
          ((if cfg.enableV4 ∧
              originator.transportAddressV4 ≠ nb.info.transportAddressV4
            then PacketValidationResult.NEIGHBOR_RESTART
            else PacketValidationResult.SUCCESS),
          { st with
            ifNeighbors :=
              updateAssoc originator.nodeName
                (fun n => { n with seqNum := seqNum })
                st.ifNeighbors })) := by
  have hver' : ¬ remoteVersion < cfg.lowestSupportedVersion := by omega
  have hdom' : ¬ originator.domainName ≠ cfg.myDomainName := by
    simpa using hdom
  constructor
  · intro hseq
    constructor
    · unfold validateHelloPacket sanityCheckHelloPkt
      simp only [if_neg hname, if_neg hdom', if_neg hver', if_neg hsubnet,
        htracked, if_pos hseq]
    · rw [lookup_updateAssoc, htracked]
      rfl
  · intro hseq
    unfold validateHelloPacket sanityCheckHelloPkt
    simp only [if_neg hname, if_neg hdom', if_neg hver', if_neg hsubnet,
      htracked, if_neg (by omega : ¬ seqNum ≤ nb.seqNum)]
    by_cases hv4 : cfg.enableV4 ∧
        originator.transportAddressV4 ≠ nb.info.transportAddressV4
    · simp only [if_pos hv4]
    · simp only [if_neg hv4]

/-- Witness for C9: a tracked neighbor stored with sequence number 10
receiving a hello with sequence number 10 (≤ stored) is classified as a
restart and its stored record is replaced. -/
theorem hello_seqnum_restart_witness :
    validateHelloPacket ⟨"node1", "domain1", 1, false, false, 100, 103⟩
        true 7
        ⟨[("nbr1", ⟨⟨"domain1", "nbr1", "if9", 4⟩, 10, 101, true⟩)],
          [101], ⟨0, 0, 0⟩⟩
        ⟨"domain1", "nbr1", "if9", 4⟩ 5 10 =
      Except.ok (PacketValidationResult.NEIGHBOR_RESTART,
        ⟨[("nbr1", ⟨⟨"domain1", "nbr1", "if9", 4⟩, 10, 101, true⟩)],
          [101], ⟨0, 0, 0⟩⟩) := by
  have h := (hello_seqnum_restart
    ⟨"node1", "domain1", 1, false, false, 100, 103⟩ true 7
    ⟨[("nbr1", ⟨⟨"domain1", "nbr1", "if9", 4⟩, 10, 101, true⟩)],
      [101], ⟨0, 0, 0⟩⟩
    ⟨"domain1", "nbr1", "if9", 4⟩ 5 10
    ⟨⟨"domain1", "nbr1", "if9", 4⟩, 10, 101, true⟩
    (by decide) rfl (by decide) (by decide) (by decide)).1
    (by decide)
  rw [h.1]
  rfl

/- ---------------------------------------------------------------------
   PrefixManager (spec §4.6 and control API §6; scenario S1).
   The PrefixManager implementation is not among the exposed sources
   (only PrefixManager.h declares `addOrUpdatePrefixes`,
   `removePrefixes`, `removePrefixesByType`, `syncPrefixesByType`), so
   the operations are modelled from the spec.
   --------------------------------------------------------------------- -/

/-- Embedding of `thrift::PrefixType` (the constructors exercised by the spec). -/
inductive PrefixType
  | LOOPBACK
  | CLIENT
  | BGP
deriving DecidableEq, Repr

/-- Modelled from the spec: a prefix entry `(ip_prefix, type)`; the
payload fields (`data`, forwarding type/algorithm, `ephemeral?`,
`metric_vector?`) are not read or written by the S1 operations and are
omitted. -/
structure PrefixEntry where
  ipPfx : String
  ptype : PrefixType
deriving DecidableEq, Repr

/-- Two entries denote the same map slot when prefix and type agree. -/
def PrefixEntry.sameKey (p q : PrefixEntry) : Bool :=
  p.ipPfx == q.ipPfx && p.ptype == q.ptype

/-- Modelled from the spec: `PrefixManager` "maintains per-source prefix
sets `{PrefixType → {prefix → Entry}}`"; the state is the union of
those sets, keyed by `(type, prefix)`. -/
def advertisePrefixes (s ps : List PrefixEntry) : List PrefixEntry :=
  ps.foldl (fun acc p =>
    if acc.any (PrefixEntry.sameKey p) then acc else acc ++ [p]) s

/-- Modelled from the spec: `withdraw` removes the given prefixes. -/
def withdrawPrefixes (s ps : List PrefixEntry) : List PrefixEntry :=
  s.filter (fun q => !(ps.any (PrefixEntry.sameKey q)))

/-- Modelled from the spec: `withdraw_by_type` removes every prefix of
the given type. -/
def withdrawPrefixesByType (s : List PrefixEntry) (t : PrefixType) :
    List PrefixEntry :=
  s.filter (fun q => q.ptype != t)

/-- Modelled from the spec: `sync_by_type(type, prefixes)` replaces all
prefixes of `type` with `prefixes` (PrefixManager.h: "replace all
prefixes of @type w/ @prefixes"). -/
def syncPrefixesByType (s : List PrefixEntry) (t : PrefixType)
    (ps : List PrefixEntry) : List PrefixEntry :=
  advertisePrefixes (withdrawPrefixesByType s t) ps

/-- Modelled from the spec: `get_prefixes` returns all entries. -/
def getPrefixes (s : List PrefixEntry) : List PrefixEntry := s

/-- Modelled from the spec: `get_prefixes_by_type`. -/
def getPrefixesByType (s : List PrefixEntry) (t : PrefixType) :
    List PrefixEntry :=
  s.filter (fun q => q.ptype == t)

/-- C1 (scenario S1): starting from an empty PrefixManager, after
advertising `{10/8:LOOPBACK, 11/8:LOOPBACK, 20/8:BGP, 21/8:BGP}`,
withdrawing `{21/8:BGP}`, withdrawing by type LOOPBACK, and syncing type
BGP to `{23/8:BGP}`, `get_prefixes()` returns exactly `{23/8:BGP}` and
`get_prefixes_by_type(LOOPBACK)` is empty. -/
theorem prefixManagerScenarioS1 :
    getPrefixes
      (syncPrefixesByType
        (withdrawPrefixesByType
          (withdrawPrefixes
            (advertisePrefixes []
              [⟨"10.0.0.0/8", PrefixType.LOOPBACK⟩,
               ⟨"11.0.0.0/8", PrefixType.LOOPBACK⟩,
               ⟨"20.0.0.0/8", PrefixType.BGP⟩,
               ⟨"21.0.0.0/8", PrefixType.BGP⟩])
            [⟨"21.0.0.0/8", PrefixType.BGP⟩])
          PrefixType.LOOPBACK)
        PrefixType.BGP [⟨"23.0.0.0/8", PrefixType.BGP⟩]) =
      [⟨"23.0.0.0/8", PrefixType.BGP⟩] ∧
    getPrefixesByType
      (syncPrefixesByType
        (withdrawPrefixesByType
          (withdrawPrefixes
            (advertisePrefixes []
              [⟨"10.0.0.0/8", PrefixType.LOOPBACK⟩,
               ⟨"11.0.0.0/8", PrefixType.LOOPBACK⟩,
               ⟨"20.0.0.0/8", PrefixType.BGP⟩,
               ⟨"21.0.0.0/8", PrefixType.BGP⟩])
            [⟨"21.0.0.0/8", PrefixType.BGP⟩])
          PrefixType.LOOPBACK)
        PrefixType.BGP [⟨"23.0.0.0/8", PrefixType.BGP⟩])
      PrefixType.LOOPBACK = [] := by
  constructor <;> rfl

/- ---------------------------------------------------------------------
   KvStore record and filtered dumps (spec §3 `Value`, §4.1 `dump_keys`;
   scenario S2). The KvStore implementation behind
   `get_kv_store_key_vals_filtered` / `get_kv_store_hash_filtered` is
   not among the exposed sources (only its test and wrapper are), so
   the filter is modelled from the spec.
   --------------------------------------------------------------------- -/

/-- Embedding of `thrift::Value`: the versioned KvStore record (spec §3). -/
structure ThriftValue where
  version : Nat
  originatorId : String
  value : Option String
  ttl : Int
  ttlVersion : Nat
  hash : Option Int
deriving DecidableEq, Repr

/-- Key prefix match (`key starts with the dump filter's prefix`). -/
def strStartsWith (s pre : String) : Bool :=
  pre.data.isPrefixOf s.data

/-- Modelled from the spec (S2): a filtered dump returns the keys whose
name starts with the given prefix — regardless of their originator,
provided the originator filter matches at least one key — together with
the keys whose originator is among `originator_ids`; each returned key
carries its stored record. -/
def dumpKeysFiltered (store : List (String × ThriftValue))
    (keyPfx : String) (originatorIds : List String) :
    List (String × ThriftValue) :=
  store.filter (fun kv =>
    strStartsWith kv.1 keyPfx || originatorIds.contains kv.2.originatorId)

/-- Modelled from the spec (S2): the hash dump "returns the same keys
with `value` omitted" — all other fields unchanged. -/
def dumpHashesFiltered (store : List (String × ThriftValue))
    (keyPfx : String) (originatorIds : List String) :
    List (String × ThriftValue) :=
  (dumpKeysFiltered store keyPfx originatorIds).map
    (fun kv => (kv.1, { kv.2 with value := none }))

/-- The nine records seeded by scenario S2 (`createThriftValue(1, node,
value)`); `ttl` and `hash` take whatever defaults the test's constants
provide, so they are parameters here. -/
def s2SeedStore (ttl : Int) (hash : Option Int) :
    List (String × ThriftValue) :=
  [("key1", ⟨1, "node1", some "value1", ttl, 0, hash⟩),
   ("key11", ⟨1, "node1", some "value11", ttl, 0, hash⟩),
   ("key111", ⟨1, "node1", some "value111", ttl, 0, hash⟩),
   ("key2", ⟨1, "node1", some "value2", ttl, 0, hash⟩),
   ("key22", ⟨1, "node1", some "value22", ttl, 0, hash⟩),
   ("key222", ⟨1, "node1", some "value222", ttl, 0, hash⟩),
   ("key3", ⟨1, "node3", some "value3", ttl, 0, hash⟩),
   ("key33", ⟨1, "node33", some "value33", ttl, 0, hash⟩),
   ("key333", ⟨1, "node33", some "value333", ttl, 0, hash⟩)]

/-- C4 (scenario S2): on the nine-key store, the filtered dump with
prefix "key3" and originator ids {"node3"} returns exactly `key3`,
`key33`, `key333` with their stored records, and the hash-filtered dump
returns the same three keys with the `value` field absent and every
other field (version, originator, ttl, ttl_version, hash) unchanged. -/
theorem kvstore_filtered_dump_s2 (ttl : Int) (hash : Option Int) :
    dumpKeysFiltered (s2SeedStore ttl hash) "key3" ["node3"] =
      [("key3", ⟨1, "node3", some "value3", ttl, 0, hash⟩),
       ("key33", ⟨1, "node33", some "value33", ttl, 0, hash⟩),
       ("key333", ⟨1, "node33", some "value333", ttl, 0, hash⟩)] ∧
    dumpHashesFiltered (s2SeedStore ttl hash) "key3" ["node3"] =
      [("key3", ⟨1, "node3", none, ttl, 0, hash⟩),
       ("key33", ⟨1, "node33", none, ttl, 0, hash⟩),
       ("key333", ⟨1, "node33", none, ttl, 0, hash⟩)] := by
  constructor <;> rfl

/- ---------------------------------------------------------------------
   ConfigStore / PersistentStore (spec §4.7 and §7; scenario S6). The
   PersistentStore implementation is not among the exposed sources
   (only its test is), so the operations are modelled from the spec.
   --------------------------------------------------------------------- -/

/-- Modelled from the spec: the typed error a `get_config_key` of a
missing key surfaces to the API caller (`thrift::OpenrError`,
"Not-found ... surfaced to API caller as a typed error"). -/
inductive OpenrError
  | NotFound
deriving DecidableEq, Repr

/-- Modelled from the spec: the ConfigStore is a durable map
`{key → bytes}` with last-writer-wins per key. -/
def setConfigKey (s : List (String × String)) (k v : String) :
    List (String × String) :=
  (k, v) :: s.filter (fun p => p.1 != k)

/-- Modelled from the spec: `erase_config_key` removes the key. -/
def eraseConfigKey (s : List (String × String)) (k : String) :
    List (String × String) :=
  s.filter (fun p => p.1 != k)

/-- Modelled from the spec: `get_config_key(key) -> bytes | NotFound`. -/
def getConfigKey (s : List (String × String)) (k : String) :
    Except OpenrError String :=
  match s.lookup k with
  | some v => Except.ok v
  | none => Except.error OpenrError.NotFound

lemma lookup_filter_ne (k : String) :
    ∀ s : List (String × String),
      (s.filter (fun p => p.1 != k)).lookup k = none := by
  intro s
  induction s with
  | nil => rfl
  | cons p ps ih =>
    by_cases h : p.1 = k
    · simpa [List.filter, h] using ih
    · have hbeq : (p.1 != k) = true := by simpa using h
      have hbeq' : (k == p.1) = false := by
        simpa using fun he => h he.symm
      simp [List.filter, hbeq, List.lookup, hbeq', ih]

lemma lookup_filter_other (k k' : String) (hne : k' ≠ k) :
    ∀ s : List (String × String),
      (s.filter (fun p => p.1 != k)).lookup k' = s.lookup k' := by
  intro s
  induction s with
  | nil => rfl
  | cons p ps ih =>
    by_cases h : p.1 = k
    · have h1 : (k' == p.1) = false := by
        simpa using fun he => hne (he.trans h)
      have h2 : (k' == k) = false := by simpa using hne
      simp [List.filter, h, List.lookup, h1, h2, ih]
    · have hbeq : (p.1 != k) = true := by simpa using h
      by_cases h2 : k' = p.1
      · simp [List.filter, hbeq, List.lookup, h2]
      · have : (k' == p.1) = false := by simpa using h2
        simp [List.filter, hbeq, List.lookup, this, ih]

/-- C5 (scenario S6): after `set_config_key(k, v)`, `get_config_key(k)`
returns `v`; after `erase_config_key(k)`, `get_config_key(k)` fails
with the typed `NotFound` error; and erasing one key leaves the value
stored under any other key untouched. -/
theorem config_store_set_get_erase (s : List (String × String))
    (k v : String) :
    getConfigKey (setConfigKey s k v) k = Except.ok v ∧
    getConfigKey (eraseConfigKey s k) k =
      Except.error OpenrError.NotFound ∧
    (∀ k', k' ≠ k → getConfigKey (eraseConfigKey s k) k' =
      getConfigKey s k') := by
  refine ⟨?_, ?_, ?_⟩
  · simp [getConfigKey, setConfigKey, List.lookup]
  · simp [getConfigKey, eraseConfigKey, lookup_filter_ne]
  · intro k' hne
    simp [getConfigKey, eraseConfigKey, lookup_filter_other k k' hne]

/-- Witness for C5: on the concrete store of scenario S6 (keys `k1`,
`k2`), erasing `k1` yields `NotFound` for `k1` and leaves `k2 → v2`
readable. -/
theorem config_store_set_get_erase_witness :
    getConfigKey (setConfigKey [("k1", "v1")] "k2" "v2") "k2" =
      Except.ok "v2" ∧
    getConfigKey (eraseConfigKey [("k1", "v1"), ("k2", "v2")] "k1") "k1" =
      Except.error OpenrError.NotFound ∧
    getConfigKey (eraseConfigKey [("k1", "v1"), ("k2", "v2")] "k1") "k2" =
      getConfigKey [("k1", "v1"), ("k2", "v2")] "k2" :=
  ⟨(config_store_set_get_erase [("k1", "v1")] "k2" "v2").1,
   (config_store_set_get_erase [("k1", "v1"), ("k2", "v2")] "k1" "x").2.1,
   (config_store_set_get_erase [("k1", "v1"), ("k2", "v2")] "k1" "x").2.2
     "k2" (by decide)⟩

/- ---------------------------------------------------------------------
   KvStoreClientInternal::persistKey (KvStoreClientInternal.cpp, with
   `advertisePendingKeys`, `scheduleTtlUpdates`, `advertiseTtlUpdates`).
   --------------------------------------------------------------------- -/

/-- Embedding of `ExponentialBackoff`, abstracted to its reported-error count (the
real object also tracks wall-clock times, which are not modelled): a
fresh `ExponentialBackoff(kInitialBackoff, kMaxBackoff)` has count 0 and
`canTryNow()` is true exactly until an error is reported. -/
structure Backoff where
  errorCount : Nat
deriving DecidableEq, Repr

def Backoff.canTryNow (b : Backoff) : Bool := b.errorCount == 0

def Backoff.reportError (b : Backoff) : Backoff := ⟨b.errorCount + 1⟩

/-- Read access `map[area]` (`operator[]` defaults to empty). -/
def getAreaMap {α : Type} (area : String)
    (m : List (String × List α)) : List α :=
  (m.lookup area).getD []

/-- Write access `map[area] = v`. -/
def setAreaMap {α : Type} (area : String) (v : List α)
    (m : List (String × List α)) : List (String × List α) :=
  (area, v) :: m.filter (fun p => p.1 != area)

/-- Embedding of `std::unordered_set::insert`. -/
def insertKeyOnce (k : String) (l : List String) : List String :=
  if l.contains k then l else k :: l

/-- The per-area state of `KvStoreClientInternal` that `persistKey`
touches: `persistedKeyVals_` (area → key → value), `backoffs_`
(key → backoff), `keyTtlBackoffs_` (area → key → (ttl record, backoff))
and `keysToAdvertise_` (area → pending keys). -/
structure ClientState where
  persistedKeyVals : List (String × List (String × ThriftValue))
  backoffs : List (String × Backoff)
  keyTtlBackoffs : List (String × List (String × (ThriftValue × Backoff)))
  keysToAdvertise : List (String × List String)
deriving DecidableEq, Repr

/-- Embedding of `KvStoreClientInternal::advertisePendingKeys`: per area, the pending
keys whose backoff allows a try are advertised — their backoffs get an
error reported (the deliberate post-send backoff) and, when the
`setKeysHelper` round-trip succeeds (`setOk`, an external outcome), the
advertised keys leave the pending set. Timer scheduling is not
modelled. A pending key always has a backoff in the source
(`backoffs_.at`); a missing one is treated as not advertisable. -/
def advertisePendingKeys (setOk : Bool) (st : ClientState) : ClientState :=
  let step := fun (acc : List (String × Backoff) × List (String × List String))
      (entry : String × List String) =>
    let advertised := entry.2.filter (fun k =>
      match acc.1.lookup k with
      | some b => b.canTryNow
      | none => false)
    let backoffs' := acc.1.map (fun p =>
      if advertised.contains p.1 then (p.1, p.2.reportError) else p)
    let pending' := if setOk
      then entry.2.filter (fun k => !(advertised.contains k))
      else entry.2
    (backoffs', acc.2 ++ [(entry.1, pending')])
  let r := st.keysToAdvertise.foldl step (st.backoffs, [])
  { st with backoffs := r.1, keysToAdvertise := r.2 }

/-- One area of `KvStoreClientInternal::advertiseTtlUpdates`: entries
whose backoff allows a try get an error reported, their version synced
from the persisted entry when the latter is newer, and their ttl
version bumped before being sent. -/
def advertiseTtlUpdatesArea
    (persistedKeyVals : List (String × ThriftValue)) :
    List (String × (ThriftValue × Backoff)) →
      List (String × (ThriftValue × Backoff))
  | [] => []
  | (key, (tv, b)) :: rest =>
    if b.canTryNow then
      let b' := b.reportError
      let tv' :=
        match persistedKeyVals.lookup key with
        | some pv =>
          if tv.version < pv.version then
            { tv with version := pv.version, ttlVersion := pv.ttlVersion }
          else tv
        | none => tv
      let tv'' := { tv' with ttlVersion := tv'.ttlVersion + 1 }
      (key, (tv'', b')) :: advertiseTtlUpdatesArea persistedKeyVals rest
    else (key, (tv, b)) :: advertiseTtlUpdatesArea persistedKeyVals rest

/-- Embedding of `KvStoreClientInternal::advertiseTtlUpdates` over all areas (the
`setKeysHelper` send has no further local effect). -/
def advertiseTtlUpdates (st : ClientState) : ClientState :=
  { st with
    keyTtlBackoffs := st.keyTtlBackoffs.map (fun aEntry =>
      (aEntry.1,
        advertiseTtlUpdatesArea (getAreaMap aEntry.1 st.persistedKeyVals)
          aEntry.2)) }

/-- Embedding of `KvStoreClientInternal::scheduleTtlUpdates`: an infinite TTL
(`Constants::kTtlInfinity`, a sentinel kept as the parameter `ttlInf`)
erases the key's ttl schedule; otherwise the key gets a fresh ttl
record (value absent, hash 0) whose backoff receives an immediate error
unless the update must go out at once; then `advertiseTtlUpdates`
runs. -/
def scheduleTtlUpdates (nodeId : String) (ttlInf : Int) (key : String)
    (version : Nat) (ttlVersion : Nat) (ttl : Int)
    (advertiseImmediately : Bool) (area : String) (st : ClientState) :
    ClientState :=
  let st' :=
    if ttl = ttlInf then
      { st with
        keyTtlBackoffs := setAreaMap area
          ((getAreaMap area st.keyTtlBackoffs).filter
            (fun p => p.1 != key))
          st.keyTtlBackoffs }
    else
      let ttlValue : ThriftValue :=
        ⟨version, nodeId, none, ttl, ttlVersion, some 0⟩
      let b : Backoff :=
        if advertiseImmediately then ⟨0⟩ else Backoff.reportError ⟨0⟩
      { st with
        keyTtlBackoffs := setAreaMap area
          ((key, (ttlValue, b)) ::
            (getAreaMap area st.keyTtlBackoffs).filter
              (fun p => p.1 != key))
          st.keyTtlBackoffs }
  advertiseTtlUpdates st'

/-- The tail of `KvStoreClientInternal::persistKey` after the stored
value `tv0` for the key has been determined: decide `valueChange`
(version 0 → version 1; different originator or value → bump version,
reset ttl version, take the new value and originator), update the TTL,
cache the entry, reset the key's backoff, enqueue the key when the
value changed, then run `advertisePendingKeys` and
`scheduleTtlUpdates`. Key callbacks are notification-only and not
modelled. -/
def persistKeyRest (nodeId : String) (ttlInf : Int) (setOk : Bool)
    (key value : String) (ttl : Int) (area : String) (st : ClientState)
    (tv0 : ThriftValue) : Bool × ClientState :=
  let step :=
    if tv0.version = 0 then ({ tv0 with version := 1 }, true)
    else if tv0.originatorId ≠ nodeId ∨ tv0.value ≠ some value then
      ({ tv0 with
        version := tv0.version + 1, ttlVersion := 0,
        value := some value, originatorId := nodeId }, true)
    else (tv0, false)
  let tv1 := step.1
  let valueChange := step.2
  let hasTtlChanged := ttl ≠ tv1.ttl
  let tv2 := { tv1 with ttl := ttl }
  let st1 : ClientState :=
    { st with
      persistedKeyVals := setAreaMap area
        ((key, tv2) ::
          (getAreaMap area st.persistedKeyVals).filter
            (fun p => p.1 != key))
        st.persistedKeyVals,
      backoffs := (key, (⟨0⟩ : Backoff)) ::
        st.backoffs.filter (fun p => p.1 != key),
      keysToAdvertise :=
        if valueChange then
          setAreaMap area
            (insertKeyOnce key (getAreaMap area st.keysToAdvertise))
            st.keysToAdvertise
        else st.keysToAdvertise }
  let st2 := advertisePendingKeys setOk st1
  let st3 := scheduleTtlUpdates nodeId ttlInf key tv2.version
    tv2.ttlVersion ttl hasTtlChanged area st2
  (true, st3)

/-- Embedding of `KvStoreClientInternal::persistKey`. `maybeKvStoreValue` abstracts
the `getKey` round-trip to the KvStore for a not-yet-persisted key (the
KvStore implementation is not among the exposed sources); `setOk`
abstracts the success of the `setKeysHelper` sends. A key already
persisted with the same value and TTL returns `false` before any state
is read or written ("this is a no op, return early and change no
state"); otherwise the cached entry (its ttl version refreshed from the
ttl schedule when one exists) flows into `persistKeyRest`. -/
def persistKey (nodeId : String) (ttlInf : Int) (setOk : Bool)
    (maybeKvStoreValue : Option ThriftValue) (key value : String)
    (ttl : Int) (area : String) (st : ClientState) : Bool × ClientState :=
  match (getAreaMap area st.persistedKeyVals).lookup key with
  | none =>
    let tv0 :=
      match maybeKvStoreValue with
      | some v => v
      | none => ⟨0, nodeId, some value, ttl, 0, none⟩
    persistKeyRest nodeId ttlInf setOk key value ttl area st tv0
  | some cached =>
    if cached.value = some value ∧ cached.ttl = ttl then (false, st)
    else
      let tv0 :=
        match (getAreaMap area st.keyTtlBackoffs).lookup key with
        | some tb => { cached with ttlVersion := tb.1.ttlVersion }
        | none => cached
      persistKeyRest nodeId ttlInf setOk key value ttl area st tv0

lemma advertisePendingKeys_persisted (setOk : Bool) (st : ClientState) :
    (advertisePendingKeys setOk st).persistedKeyVals =
      st.persistedKeyVals := rfl

lemma advertiseTtlUpdates_persisted (st : ClientState) :
    (advertiseTtlUpdates st).persistedKeyVals = st.persistedKeyVals := rfl

lemma scheduleTtlUpdates_persisted (nodeId : String) (ttlInf : Int)
    (key : String) (version ttlVersion : Nat) (ttl : Int)
    (advertiseImmediately : Bool) (area : String) (st : ClientState) :
    (scheduleTtlUpdates nodeId ttlInf key version ttlVersion ttl
      advertiseImmediately area st).persistedKeyVals =
      st.persistedKeyVals := by
  by_cases h : ttl = ttlInf
  · simp [scheduleTtlUpdates, if_pos h, advertiseTtlUpdates_persisted]
  · simp [scheduleTtlUpdates, if_neg h, advertiseTtlUpdates_persisted]

lemma getAreaMap_setAreaMap {α : Type} (area : String) (v : List α)
    (m : List (String × List α)) :
    getAreaMap area (setAreaMap area v m) = v := by
  simp [getAreaMap, setAreaMap, List.lookup]

/-- What `persistKeyRest` stores for the key when the cached entry's
version is valid and the value (or originator) changed: the version is
bumped, the ttl version reset to 0, the value and TTL taken from the
call, and the originator set to this node. -/
lemma persistKeyRest_result (nodeId : String) (ttlInf : Int)
    (setOk : Bool) (key value : String) (ttl : Int) (area : String)
    (st : ClientState) (tv0 : ThriftValue) (h0 : ¬ tv0.version = 0)
    (hch : tv0.originatorId ≠ nodeId ∨ tv0.value ≠ some value) :
    (persistKeyRest nodeId ttlInf setOk key value ttl area st tv0).1 =
      true ∧
    (getAreaMap area
        (persistKeyRest nodeId ttlInf setOk key value ttl area st
          tv0).2.persistedKeyVals).lookup key =
      some { version := tv0.version + 1, originatorId := nodeId,
             value := some value, ttl := ttl, ttlVersion := 0,
             hash := tv0.hash } := by
  unfold persistKeyRest
  simp only [if_neg h0, if_pos hch]
  refine ⟨trivial, ?_⟩
  rw [scheduleTtlUpdates_persisted, advertisePendingKeys_persisted]
  dsimp only
  rw [getAreaMap_setAreaMap]
  simp [List.lookup]

/-- C10: `persistKey` on a key already persisted in the area is a no-op
when called with the same value and TTL — it returns `false` and the
whole client state (persisted key-vals, backoffs, ttl schedules,
pending advertisements) is returned unchanged; a call that changes the
value returns `true` and stores the entry with the version bumped by
one, the ttl version reset to 0, and this node as originator. -/
theorem persistKey_idempotent (nodeId : String) (ttlInf : Int)
    (setOk : Bool) (maybeKvStoreValue : Option ThriftValue)
    (key value : String) (ttl : Int) (area : String) (st : ClientState)
    (cached : ThriftValue)
    (hcached : (getAreaMap area st.persistedKeyVals).lookup key =
      some cached) :
    (cached.value = some value → cached.ttl = ttl →
      persistKey nodeId ttlInf setOk maybeKvStoreValue key value ttl area
        st = (false, st)) ∧
    (cached.value ≠ some value → ¬ cached.version = 0 →
      (persistKey nodeId ttlInf setOk maybeKvStoreValue key value ttl area
        st).1 = true ∧
      (getAreaMap area
          (persistKey nodeId ttlInf setOk maybeKvStoreValue key value ttl
            area st).2.persistedKeyVals).lookup key =
        some { version := cached.version + 1, originatorId := nodeId,
               value := some value, ttl := ttl, ttlVersion := 0,
               hash := cached.hash }) := by
  constructor
  · intro hval httl
    unfold persistKey
    simp only [hcached]
    rw [if_pos ⟨hval, httl⟩]
  · intro hval hver
    cases htb : (getAreaMap area st.keyTtlBackoffs).lookup key with
    | none =>
      have hpk : persistKey nodeId ttlInf setOk maybeKvStoreValue key
          value ttl area st =
          persistKeyRest nodeId ttlInf setOk key value ttl area st
            cached := by
        unfold persistKey
        simp only [hcached, htb]
        rw [if_neg (by tauto)]
      rw [hpk]
      exact persistKeyRest_result nodeId ttlInf setOk key value ttl area
        st cached hver (Or.inr hval)
    | some tb =>
      have hpk : persistKey nodeId ttlInf setOk maybeKvStoreValue key
          value ttl area st =
          persistKeyRest nodeId ttlInf setOk key value ttl area st
            { cached with ttlVersion := tb.1.ttlVersion } := by
        unfold persistKey
        simp only [hcached, htb]
        rw [if_neg (by tauto)]
      rw [hpk]
      exact persistKeyRest_result nodeId ttlInf setOk key value ttl area
        st { cached with ttlVersion := tb.1.ttlVersion } hver
        (Or.inr hval)

/-- Witness for C10: on a concrete client state persisting
`k → (version 2, value "v", ttl 100)` in area "a", re-persisting the
same value and TTL returns `false` with the state unchanged, and
persisting the new value "w" stores version 3, ttl version 0, this
node as originator. -/
theorem persistKey_idempotent_witness :
    persistKey "n" (-1) true none "k" "v" 100 "a"
        ⟨[("a", [("k", ⟨2, "n", some "v", 100, 5, none⟩)])],
          [("k", ⟨1⟩)], [], [("a", [])]⟩ =
      (false,
        ⟨[("a", [("k", ⟨2, "n", some "v", 100, 5, none⟩)])],
          [("k", ⟨1⟩)], [], [("a", [])]⟩) ∧
    (getAreaMap "a"
        (persistKey "n" (-1) true none "k" "w" 100 "a"
          ⟨[("a", [("k", ⟨2, "n", some "v", 100, 5, none⟩)])],
            [("k", ⟨1⟩)], [], [("a", [])]⟩).2.persistedKeyVals).lookup
        "k" =
      some ⟨3, "n", some "w", 100, 0, none⟩ :=
  ⟨(persistKey_idempotent "n" (-1) true none "k" "v" 100 "a"
      ⟨[("a", [("k", ⟨2, "n", some "v", 100, 5, none⟩)])],
        [("k", ⟨1⟩)], [], [("a", [])]⟩
      ⟨2, "n", some "v", 100, 5, none⟩ (by rfl)).1 rfl rfl,
   ((persistKey_idempotent "n" (-1) true none "k" "w" 100 "a"
      ⟨[("a", [("k", ⟨2, "n", some "v", 100, 5, none⟩)])],
        [("k", ⟨1⟩)], [], [("a", [])]⟩
      ⟨2, "n", some "v", 100, 5, none⟩ (by rfl)).2
      (by decide) (by decide)).2⟩

end Openr
